import Mathlib

/-!
Shallow embedding of the Cozycondo verification and setup scripts.

Each Python script talks to an external HTTP service and prints
human-readable status text.  We model one HTTP exchange as a value of
`Except String Response`: `.error msg` stands for a raised network
exception (`requests.RequestException` / a bare `Exception`, as caught
by the respective script), `.ok r` for a delivered HTTP response.
The environment `Env` maps each request the scripts can issue to its
outcome; a script run is then a pure function of the environment,
returning the trace of issued requests, the list of printed lines and
the script's return value.

JSON bodies are modelled at the granularity the scripts consume them:
a decoded list of rows (`Row` = association list of field name/value),
with `none` standing for a body on which `response.json()` raises.
The `Content-Range` response header is modelled as a `List Char` so
that the index/split arithmetic performed on it stays kernel-computable.
-/

namespace Cozy

/-- A JSON object as the scripts consume it: field name / field value pairs. -/
abbrev Row := List (String × String)

/-- `row.get(key, default)` from the Python scripts. -/
def rowGetD (row : Row) (k d : String) : String :=
  match row.find? (fun p => p.1 == k) with
  | some p => p.2
  | none => d

/-- `row[key]` from the Python scripts: `none` models a raised `KeyError`. -/
def rowGet? (row : Row) (k : String) : Option String :=
  (row.find? (fun p => p.1 == k)).map Prod.snd

/-- An HTTP response as the scripts observe it.
`json` is the body decoded as a JSON list (`none`: `response.json()`
raises), `errJson` the body decoded as a JSON object (used on error
paths that do `response.json().get(...)`; `none`: decoding raises),
`contentRange` the optional `Content-Range` header. -/
structure Response where
  status : Nat
  text : String
  json : Option (List Row)
  errJson : Option Row
  contentRange : Option (List Char)
  deriving DecidableEq, Repr

/-- The HTTP requests the scripts issue, keyed by endpoint shape. -/
inductive Req where
  /-- `GET /rest/v1/{table}?limit=1` (existence probe). -/
  | existsGet (table : String)
  /-- `GET /rest/v1/{table}` (full listing). -/
  | listGet (table : String)
  /-- `GET /rest/v1/{table}?select=count` with `count=exact, limit=0`. -/
  | countGet (table : String)
  /-- `GET /rest/v1/{table}?select=...` with params (sample probes). -/
  | selGet (table : String) (sel : String)
  /-- `GET /storage/v1/bucket` (bucket listing). -/
  | bucketList
  /-- `POST /storage/v1/bucket` (bucket creation). -/
  | bucketCreate (id : String)
  /-- `PUT /storage/v1/bucket/{id}` (set public flag). -/
  | bucketSetPublic (id : String)
  deriving DecidableEq, Repr

/-- The outcomes of all HTTP exchanges a run can perform. -/
abbrev Env := Req → Except String Response

/-- Python `s.split(c)` on a character sequence (structural, total). -/
def splitOnChar (c : Char) : List Char → List (List Char)
  | [] => [[]]
  | x :: xs =>
    let r := splitOnChar c xs
    if x = c then [] :: r
    else
      match r with
      | [] => [[x]]
      | y :: ys => (x :: y) :: ys

/-- `response.headers.get('Content-Range', '0').split('/')[1]`:
`none` models the `IndexError` raised when the split has no index 1. -/
def pySplitIndex1 (h : Option (List Char)) : Option (List Char) :=
  (splitOnChar '/' (h.getD ['0'])).get? 1

/-- Digit-string to number; `none` on a non-digit character or empty input. -/
def digitsToNat? : List Char → Option Nat
  | [] => none
  | cs => go cs 0
where
  go : List Char → Nat → Option Nat
  | [], acc => some acc
  | c :: cs, acc =>
    if c.isDigit then go cs (acc * 10 + (c.toNat - 48)) else none

/-- Python `int(s)` on the strings this code can meet: optional
surrounding whitespace, optional sign, then decimal digits.  `none`
models a raised `ValueError`.  (Digit-group underscores and non-ASCII
digits accepted by CPython are not modelled; the inputs here are
HTTP header fragments.) -/
def pyInt? (s : List Char) : Option Int :=
  let t := ((s.dropWhile Char.isWhitespace).reverse.dropWhile Char.isWhitespace).reverse
  match t with
  | '+' :: ds => (digitsToNat? ds).map Int.ofNat
  | '-' :: ds => (digitsToNat? ds).map (fun n => -(n : Int))
  | ds => (digitsToNat? ds).map Int.ofNat

/-! ## verify_schema.py -/

/-- The five tables checked by every verification script. -/
def tables_to_check : List String :=
  ["properties", "property_photos", "calendar_events", "blog_posts", "site_settings"]

/-- One iteration of the `verify_tables` loop (verify_schema.py lines
30-51): printed lines and the table's contribution to
`all_tables_exist`.  A `response.json()` failure in the 200 branch is
raised after the ✅ line and caught by the `requests.RequestException`
handler. -/
def checkTableStep (table : String) (o : Except String Response) : List String × Bool :=
  match o with
  | .error e => ([s!"❌ Table {table} - Connection error: {e}"], false)
  | .ok r =>
    let st := r.status
    if r.status == 200 then
      match r.json with
      | some data =>
        let n := data.length
        if data.isEmpty then
          ([s!"✅ Table {table} exists and is accessible",
            "   └── Table is empty (expected for fresh installation)"], true)
        else
          ([s!"✅ Table {table} exists and is accessible",
            s!"   └── Contains {n} record(s)"], true)
      | none =>
        ([s!"✅ Table {table} exists and is accessible",
          s!"❌ Table {table} - Connection error: JSONDecodeError"], false)
    else
      let detail :=
        match r.errJson with
        | some obj =>
          let m := rowGetD obj "message" "Unknown error"
          s!"   └── Details: {m}"
        | none =>
          let t := r.text
          s!"   └── HTTP Error: {t}"
      ([s!"❌ Table {table} - Error: {st}", detail], false)

/-- The `for table in tables_to_check` loop of `verify_tables`:
request trace, printed lines, final `all_tables_exist`. -/
def verifyLoop : List String → Env → List Req × List String × Bool
  | [], _ => ([], [], true)
  | t :: ts, env =>
    let s := checkTableStep t (env (.existsGet t))
    let rest := verifyLoop ts env
    (Req.existsGet t :: rest.1, s.1 ++ rest.2.1, s.2 && rest.2.2)

/-- The `Checking sample data...` block of `verify_tables` (lines
59-72): one GET of the full `properties` listing inside a bare
`try/except`. -/
def samplePropsBlock (env : Env) : List String :=
  match env (.listGet "properties") with
  | .error _ => ["⚠️  Could not check sample data"]
  | .ok r =>
    if r.status == 200 then
      match r.json with
      | none => ["⚠️  Could not check sample data"]
      | some props =>
        if props.isEmpty then
          ["ℹ️  No sample properties found (this is normal if you removed sample data)"]
        else
          let n := props.length
          s!"✅ Sample properties loaded: {n} properties" ::
            props.map (fun p =>
              "   - " ++ rowGetD p "name" "Unnamed" ++ " (" ++ rowGetD p "slug" "no-slug" ++ ")")
    else []

/-- The `Checking site settings...` block of `verify_tables` (lines
74-88). -/
def sampleSettingsBlock (env : Env) : List String :=
  match env (.listGet "site_settings") with
  | .error _ => ["⚠️  Could not check site settings"]
  | .ok r =>
    if r.status == 200 then
      match r.json with
      | none => ["⚠️  Could not check site settings"]
      | some data =>
        match data with
        | [] => ["⚠️  No site settings found"]
        | setting :: _ =>
          let nm := rowGetD setting "site_name" "Unknown"
          let tg := rowGetD setting "tagline" "Not set"
          let em := rowGetD setting "email" "Not set"
          [s!"✅ Site settings configured: {nm}",
           s!"   - Tagline: {tg}",
           s!"   - Email: {em}"]
    else []

/-- The 50-character separator line (`"=" * 50`) printed by the scripts. -/
def sep50 : String := String.mk (List.replicate 50 '=')

/-- `verify_tables()` from verify_schema.py: request trace, printed
lines, return value. -/
def verify_tables (env : Env) : List Req × List String × Bool :=
  let loop := verifyLoop tables_to_check env
  let header := ["Verifying Cozy Condo schema execution...", sep50]
  if loop.2.2 then
    (loop.1 ++ [Req.listGet "properties", Req.listGet "site_settings"],
     header ++ loop.2.1 ++ ["", sep50,
       "🎉 Schema verification completed successfully!",
       "All tables are created and accessible.",
       "", "Checking sample data..."] ++ samplePropsBlock env ++
       ["", "Checking site settings..."] ++ sampleSettingsBlock env,
     true)
  else
    (loop.1,
     header ++ loop.2.1 ++ ["", sep50,
       "❌ Schema verification failed!",
       "Some tables are missing or inaccessible.",
       "", "To resolve this, please execute the schema manually:",
       "1. Go to: https://supabase.com/dashboard/project/pzrdkijtktgdwayjzbfu",
       "2. Navigate to SQL Editor",
       "3. Copy and paste the contents of /mnt/m/AI/cozy-condo/supabase/schema.sql",
       "4. Click Run to execute"],
     false)

/-- `sys.exit(0 if success else 1)` of verify_schema.py `__main__`. -/
def verify_schema_exit (env : Env) : Nat :=
  if (verify_tables env).2.2 then 0 else 1

/-- The per-table success condition of the `verify_tables` loop:
the GET raised no exception, returned status 200, and its body decoded. -/
def tableCheckOk (o : Except String Response) : Bool :=
  match o with
  | .error _ => false
  | .ok r => r.status == 200 && r.json.isSome

/-! ## execute_schema_api.py -/

/-- One iteration of the `check_if_tables_exist` loop
(execute_schema_api.py lines 70-86): printed lines, and `some count`
exactly when `(table, count)` is appended to `existing_tables`.  The
whole iteration body sits in an `except Exception` handler, so the
`IndexError` from `split('/')[1]` lands in the ✗-error branch. -/
def checkExistStep (table : String) (o : Except String Response) :
    List String × Option (List Char) :=
  match o with
  | .error e => ([s!"✗ Error checking table {table}: {e}"], none)
  | .ok r =>
    if r.status == 200 then
      match pySplitIndex1 r.contentRange with
      | some count =>
        let cs := String.mk count
        ([s!"✓ Table {table} exists with {cs} records"], some count)
      | none =>
        ([s!"✗ Error checking table {table}: list index out of range"], none)
    else
      ([s!"✗ Table {table} does not exist or is not accessible"], none)

/-- The `for table in tables_to_check` loop of `check_if_tables_exist`:
request trace, printed lines, accumulated `existing_tables`. -/
def checkExistLoop : List String → Env → List Req × List String × List (String × List Char)
  | [], _ => ([], [], [])
  | t :: ts, env =>
    let s := checkExistStep t (env (.countGet t))
    let rest := checkExistLoop ts env
    (Req.countGet t :: rest.1,
     s.1 ++ rest.2.1,
     (match s.2 with | some c => [(t, c)] | none => []) ++ rest.2.2)

/-- The sample-data scan over `existing_tables` (execute_schema_api.py
lines 92-95): `int(count)` is evaluated outside any `try`, so a
non-numeric count for `properties` raises an uncaught `ValueError`,
modelled as `.error`. -/
def scanProps : List (String × List Char) → Except String (List String)
  | [] => .ok []
  | (name, c) :: rest =>
    if name == "properties" then
      match pyInt? c with
      | none => .error "ValueError: invalid literal for int() with base 10"
      | some n =>
        if n > 0 then
          let cs := String.mk c
          .ok [s!"✓ Sample data exists: {cs} properties found"]
        else scanProps rest
    else scanProps rest

/-- `check_if_tables_exist()` from execute_schema_api.py: request
trace, printed lines and return value; `.error` models the run dying
on an uncaught exception. -/
def check_if_tables_exist (env : Env) : Except String (List Req × List String × Bool) :=
  let loop := checkExistLoop tables_to_check env
  let header := "Checking if database schema has been set up..."
  let nE := loop.2.2.length
  let nT := tables_to_check.length
  if loop.2.2.length == tables_to_check.length then
    match scanProps loop.2.2 with
    | .error e => .error e
    | .ok extra =>
      .ok (loop.1,
           header :: loop.2.1 ++
             [s!"🎉 All {nE} tables exist! Database schema appears to be set up."] ++ extra,
           true)
  else
    .ok (loop.1,
         header :: loop.2.1 ++
           [s!"❌ Only {nE} out of {nT} tables exist.",
            "The database schema needs to be set up."],
         false)

/-- `execute_schema_via_api()` from execute_schema_api.py: given the
schema file contents (`none`: `read_schema_file` prints an error and
exits the process with code 1), it prints the manual dashboard/psql
instructions and the schema text, issues no HTTP request, and returns
`False`. -/
def execute_schema_via_api (schemaFile : Option String) :
    Except Nat (List Req × List String × Bool) :=
  match schemaFile with
  | none => .error 1
  | some schema_sql =>
    .ok ([],
      ["Reading schema file...",
       "❌ Direct SQL execution via API is not available through public endpoints.",
       "OPTION 1 - Supabase Dashboard (Recommended):",
       "1. Go to: https://supabase.com/dashboard/project/pzrdkijtktgdwayjzbfu",
       "2. Navigate to SQL Editor in the sidebar",
       "3. Copy the entire schema from: /mnt/m/AI/cozy-condo/supabase/schema.sql",
       "4. Paste it into the SQL Editor",
       "5. Click Run to execute",
       "OPTION 2 - Local psql client:",
       "psql -h db.pzrdkijtktgdwayjzbfu.supabase.co -p 5432 -U postgres -d postgres -f supabase/schema.sql",
       "OPTION 3 - Copy schema content:",
       schema_sql],
      false)

/-- The process exit code of execute_schema_api.py `__main__`: 0 when
`check_if_tables_exist` returns `True`; 1 when it returns `False`
(after printing the manual instructions, or exiting early when the
schema file is missing); 1 when the run dies on an uncaught exception
(the CPython interpreter exits 1 after the traceback). -/
def execute_schema_api_exit (env : Env) (schemaFile : Option String) : Nat :=
  match check_if_tables_exist env with
  | .error _ => 1
  | .ok out =>
    if out.2.2 then 0
    else
      match execute_schema_via_api schemaFile with
      | .error c => c
      | .ok _ => 1

/-- The per-table condition under which `check_if_tables_exist`
appends the table to `existing_tables`: no exception, status 200, and
a record count extractable from the `Content-Range` header. -/
def apiCount (o : Except String Response) : Option (List Char) :=
  match o with
  | .error _ => none
  | .ok r => if r.status == 200 then pySplitIndex1 r.contentRange else none

/-! ## verify_setup.py -/

/-- The tables of `verify_database_setup` with their descriptions. -/
def tables_to_verify : List (String × String) :=
  [("properties", "Property listings"),
   ("property_photos", "Property photos"),
   ("calendar_events", "Calendar events"),
   ("blog_posts", "Blog posts"),
   ("site_settings", "Site settings")]

/-- One iteration of the `verify_database_setup` loop (verify_setup.py
lines 33-51): printed lines, the table's contribution to
`all_tables_exist`, and its contribution to `total_records`.  The
count extraction and `int(count)` both sit inside the per-table
`except Exception` handler. -/
def verifySetupStep (desc : String) (o : Except String Response) :
    List String × Bool × Int :=
  match o with
  | .error e => ([s!"✗ {desc}: Error - {e}"], false, 0)
  | .ok r =>
    let st := r.status
    if r.status == 200 then
      match pySplitIndex1 r.contentRange with
      | none => ([s!"✗ {desc}: Error - list index out of range"], false, 0)
      | some count =>
        match pyInt? count with
        | none =>
          ([s!"✗ {desc}: Error - invalid literal for int() with base 10"], false, 0)
        | some n =>
          let cs := String.mk count
          ([s!"✓ {desc}: {cs} records"], true, n)
    else
      ([s!"✗ {desc}: Table not accessible (Status: {st})"], false, 0)

/-- The `for table, description in tables_to_verify.items()` loop:
request trace, printed lines, `all_tables_exist`, `total_records`. -/
def verifySetupLoop : List (String × String) → Env → List Req × List String × Bool × Int
  | [], _ => ([], [], true, 0)
  | (t, d) :: ts, env =>
    let s := verifySetupStep d (env (.countGet t))
    let rest := verifySetupLoop ts env
    (Req.countGet t :: rest.1,
     s.1 ++ rest.2.1,
     s.2.1 && rest.2.2.1,
     s.2.2 + rest.2.2.2)

/-- The sample-properties probe of the success branch (verify_setup.py
lines 61-77), wrapped in its own `try/except`. -/
def setupSampleProps (env : Env) : List String :=
  match env (.selGet "properties" "name,slug,location") with
  | .error e => [s!"⚠️  Could not fetch sample properties: {e}"]
  | .ok r =>
    if r.status == 200 then
      match r.json with
      | none => ["⚠️  Could not fetch sample properties: JSONDecodeError"]
      | some props =>
        if props.isEmpty then ["ℹ️  No sample properties found (this is okay)"]
        else
          match props.mapM (fun p => do
              let n ← rowGet? p "name"
              let s ← rowGet? p "slug"
              let l ← rowGet? p "location"
              pure (s!"  • {n} ({s}) - {l}")) with
          | some lines => "📝 Sample Properties Found:" :: lines
          | none => ["⚠️  Could not fetch sample properties: KeyError"]
    else []

/-- The site-settings probe of the success branch (verify_setup.py
lines 80-94), wrapped in its own `try/except`. -/
def setupSiteSettings (env : Env) : List String :=
  match env (.selGet "site_settings" "site_name,tagline") with
  | .error e => [s!"⚠️  Could not fetch site settings: {e}"]
  | .ok r =>
    if r.status == 200 then
      match r.json with
      | none => ["⚠️  Could not fetch site settings: JSONDecodeError"]
      | some settings =>
        match settings with
        | [] => []
        | s0 :: _ =>
          match rowGet? s0 "site_name", rowGet? s0 "tagline" with
          | some nm, some tg =>
            ["🏠 Site Configuration:", s!"  • Site Name: {nm}", s!"  • Tagline: {tg}"]
          | _, _ => ["⚠️  Could not fetch site settings: KeyError"]
    else []

/-- `verify_database_setup()` from verify_setup.py: request trace,
printed lines, return value. -/
def verify_database_setup (env : Env) : List Req × List String × Bool :=
  let loop := verifySetupLoop tables_to_verify env
  let header := ["🔍 Verifying Cozy Condo Database Setup", sep50]
  let total := loop.2.2.2
  if loop.2.2.1 then
    (loop.1 ++ [Req.selGet "properties" "name,slug,location",
                Req.selGet "site_settings" "site_name,tagline"],
     header ++ loop.2.1 ++
       ["🎉 DATABASE VERIFICATION SUCCESSFUL!",
        "✓ All required tables are accessible",
        s!"✓ Total records found: {total}"] ++
       setupSampleProps env ++ setupSiteSettings env ++
       ["✅ Your Cozy Condo database is ready to use!"],
     true)
  else
    (loop.1,
     header ++ loop.2.1 ++
       ["❌ DATABASE VERIFICATION FAILED!",
        "Some tables are missing or not accessible.",
        "Please ensure the schema has been properly executed."],
     false)

/-! ## setup_storage.py -/

/-- The two required storage buckets (both configured `public: True`). -/
def bucketIds : List String := ["property-photos", "blog-images"]

/-- `[bucket["name"] for bucket in existing_buckets]`: `none` models a
`KeyError` on a listing entry without a `name` field. -/
def bucketNames? (bks : List Row) : Option (List String) :=
  bks.mapM (fun b => rowGet? b "name")

/-- The existing-bucket listing step of `setup_storage_buckets`
(setup_storage.py lines 37-50): printed lines and
`existing_bucket_names`, which is `[]` on a non-200 response or any
exception. -/
def existingNames (o : Except String Response) : List String × List String :=
  match o with
  | .error e => ([s!"Error checking buckets: {e}"], [])
  | .ok r =>
    let st := r.status
    if r.status == 200 then
      match r.json with
      | none => (["Error checking buckets: JSONDecodeError"], [])
      | some bks =>
        match bucketNames? bks with
        | none => (["Error checking buckets: KeyError"], [])
        | some names =>
          let ns := toString names
          ([s!"Existing buckets: {ns}"], names)
    else
      ([s!"Could not retrieve existing buckets: {st}"], [])

/-- One iteration of the bucket loop (setup_storage.py lines 54-105):
request trace, printed lines, and the bucket's contribution to
`success_count`.  `success_count += 1` precedes the public-flag PUT,
so a failed or raising PUT leaves the bucket counted as ready; the
PUT's exception is caught by the iteration-level `except Exception`. -/
def createBucketStep (id : String) (existing : List String) (env : Env) :
    List Req × List String × Bool :=
  let header := s!"Creating bucket: {id}"
  if existing.contains id then
    ([], [header, s!"✅ Bucket {id} already exists"], true)
  else
    match env (.bucketCreate id) with
    | .error e =>
      ([Req.bucketCreate id], [header, s!"❌ Exception creating bucket {id}: {e}"], false)
    | .ok r =>
      let st := r.status
      if r.status == 200 || r.status == 201 then
        let created := s!"✅ Successfully created bucket {id}"
        match env (.bucketSetPublic id) with
        | .error e =>
          ([Req.bucketCreate id, Req.bucketSetPublic id],
           [header, created, s!"❌ Exception creating bucket {id}: {e}"], true)
        | .ok pr =>
          ([Req.bucketCreate id, Req.bucketSetPublic id],
           [header, created,
            if pr.status == 200 then "   └── Set bucket to public access"
            else "   └── Warning: Could not set public access"],
           true)
      else
        let detail :=
          match r.errJson with
          | some obj =>
            let es := toString obj
            s!"   └── Error: {es}"
          | none =>
            let t := r.text
            s!"   └── Error: {t}"
        ([Req.bucketCreate id],
         [header, s!"❌ Failed to create bucket {id}: {st}", detail], false)

/-- The `for bucket in buckets` loop: request trace, printed lines,
`success_count`. -/
def bucketLoop : List String → List String → Env → List Req × List String × Nat
  | [], _, _ => ([], [], 0)
  | b :: bs, names, env =>
    let s := createBucketStep b names env
    let rest := bucketLoop bs names env
    (s.1 ++ rest.1, s.2.1 ++ rest.2.1, (if s.2.2 then 1 else 0) + rest.2.2)

/-- `setup_storage_buckets()` from setup_storage.py: request trace,
printed lines, return value `success_count == len(buckets)`. -/
def setup_storage_buckets (env : Env) : List Req × List String × Bool :=
  let listing := existingNames (env .bucketList)
  let loop := bucketLoop bucketIds listing.2 env
  let cnt := loop.2.2
  let nB := bucketIds.length
  (Req.bucketList :: loop.1,
   ["Setting up Supabase storage buckets...", sep50, "Checking existing buckets..."] ++
     listing.1 ++ loop.2.1 ++ [sep50] ++
     (if cnt == nB then
        ["🎉 All storage buckets are ready!"]
      else
        [s!"⚠️  {cnt}/{nB} buckets are ready.",
         "You may need to create buckets manually in the Supabase Dashboard:"]),
   cnt == nB)

/-- Per-bucket readiness as `setup_storage_buckets` counts it: already
listed, or created with status 200/201. -/
def bucketReady (env : Env) (names : List String) (id : String) : Bool :=
  names.contains id ||
    (match env (.bucketCreate id) with
     | .ok r => r.status == 200 || r.status == 201
     | .error _ => false)

/-! ## detailed_data_check.py -/

/-- `get_data(table_name)` from detailed_data_check.py: printed lines
and return value, given the table's HTTP response.  The `.error`
result models the uncaught exception raised by `response.json()` on an
undecodable 200 body (nothing in this script catches it). -/
def get_data (table_name : String) (r : Response) :
    Except String (List String × Option (List Row)) :=
  let st := r.status
  let t := r.text
  if r.status == 200 then
    match r.json with
    | some d => .ok ([], some d)
    | none => .error "JSONDecodeError"
  else
    .ok ([s!"Error fetching {table_name}: {st} - {t}"], none)

/-! ## final_verification.py -/

/-- One iteration of the `test_anon_access` loop
(final_verification.py lines 27-37): the single line printed for the
table.  The whole body sits in `except Exception`, which also catches
a `response.json()` failure. -/
def anonStep (table : String) (o : Except String Response) : String :=
  match o with
  | .error e => s!"❌ {table}: Error - {e}"
  | .ok r =>
    let st := r.status
    if r.status == 200 then
      match r.json with
      | some d =>
        let n := d.length
        s!"✅ {table}: Anonymous can read {n} records"
      | none => s!"❌ {table}: Error - JSONDecodeError"
    else
      s!"❌ {table}: Anonymous access denied (Status: {st})"

/-- The `for table in tables` loop of `test_anon_access`: request
trace and printed lines. -/
def anonLoop : List String → Env → List Req × List String
  | [], _ => ([], [])
  | t :: ts, env =>
    let rest := anonLoop ts env
    (Req.listGet t :: rest.1, anonStep t (env (.listGet t)) :: rest.2)

/-- `test_anon_access()` from final_verification.py: request trace and
printed lines. -/
def test_anon_access (env : Env) : List Req × List String :=
  let loop := anonLoop tables_to_check env
  (loop.1, ["TESTING ANONYMOUS ACCESS", sep50] ++ loop.2)

/-! ## schema_verification.py -/

/-- The success message of the column comparison in
schema_verification.py `main`. -/
def colsOkMsg : String := "✅ All expected columns present and no extras"

/-- The column-set comparison of schema_verification.py `main` (lines
71-80): `set(expected) - set(actual)` and `set(actual) - set(expected)`
drive the branch; the printed branch lines. -/
def check_columns (expected actual : List String) : List String :=
  let missing := expected.filter (fun c => !actual.contains c)
  let extra := actual.filter (fun c => !expected.contains c)
  if missing.isEmpty && extra.isEmpty then
    [colsOkMsg]
  else
    (if missing.isEmpty then []
     else ["❌ Missing columns: " ++ toString missing]) ++
    (if extra.isEmpty then []
     else ["⚠️  Extra columns: " ++ toString extra])

/-! ## execute_schema.py -/

/-- The observations `execute_schema` makes over an established
database session (execute_schema.py lines 44-116): the query results
it fetches and prints.  Any `psycopg2.Error` during connection or
execution is modelled by the session being `.error`. -/
structure DbRun where
  tables : List String
  propertyCount : Nat
  properties : List (String × String)
  settingsCount : Nat
  siteName : String
  tagline : String
  indexes : List (String × String)
  triggers : List (String × String)
  deriving Repr

/-- `execute_schema()` from execute_schema.py: given the schema file
contents (`none`: `read_schema_file` exits the process with code 1)
and the outcome of the database session, the printed lines and return
value.  A connection failure is caught by the `except psycopg2.Error`
handler, printed, and turned into `return False`. -/
def execute_schema (schemaFile : Option String) (conn : Except String DbRun) :
    Except Nat (List String × Bool) :=
  match schemaFile with
  | none => .error 1
  | some _ =>
    match conn with
    | .error e =>
      .ok (["Reading schema file...",
            "Connecting to Supabase PostgreSQL database...",
            s!"❌ Database error: {e}"],
           false)
    | .ok run =>
      let nT := run.tables.length
      let nI := run.indexes.length
      let nG := run.triggers.length
      let pc := run.propertyCount
      let sc := run.settingsCount
      .ok (["Reading schema file...",
            "Connecting to Supabase PostgreSQL database...",
            "✓ Connection successful!",
            "Executing schema...",
            "✓ Schema executed successfully!",
            "Verifying table creation...",
            s!"✓ Created {nT} tables:"] ++
           run.tables.map (fun t => s!"  - {t}") ++
           ["Verifying sample data...",
            s!"✓ Properties table: {pc} records",
            s!"✓ Site settings table: {sc} records",
            "Verifying indexes...",
            s!"✓ Created {nI} custom indexes:",
            "Verifying triggers...",
            s!"✓ Created {nG} triggers:",
            "🎉 DATABASE SETUP COMPLETED SUCCESSFULLY!",
            "Database connection closed."],
           true)

/-! ## Ambient process state (for the determinism claim) -/

/-- Ambient inputs a Python process could in principle consult beyond
its HTTP responses: wall clock, randomness, and other shared mutable
state.  The scripts never read any of them, which the run wrappers
below make explicit. -/
structure Ambient where
  clock : Nat
  rng : Nat
  shared : Nat
  deriving Repr

/-- A `verify_tables` run within its full process environment: the
script's body consults only the HTTP outcomes, never the ambient
state. -/
def verify_tables_run (amb : Ambient) (env : Env) : List Req × List String × Bool :=
  let _ := amb
  verify_tables env

/-- A `check_if_tables_exist` run within its full process
environment: the script's body consults only the HTTP outcomes, never
the ambient state. -/
def check_tables_run (amb : Ambient) (env : Env) :
    Except String (List Req × List String × Bool) :=
  let _ := amb
  check_if_tables_exist env

/-! ## Concrete environments used by witnesses and counterexamples -/

/-- An environment in which every request raises a connection error. -/
def envAllErr : Env := fun _ => .error "ConnectionError"

/-- The status of an HTTP exchange, when a response arrived. -/
def exStatus (o : Except String Response) : Option Nat :=
  match o with
  | .ok r => some r.status
  | .error _ => none

/-- A well-formed `Content-Range` header value, `0-2/3`. -/
def goodCR : List Char := ['0', '-', '2', '/', '3']

/-- A healthy response: status 200, decodable empty list body,
well-formed `Content-Range`. -/
def respOk : Response :=
  { status := 200, text := "[]", json := some [], errJson := none,
    contentRange := some goodCR }

/-- An environment in which every check fully succeeds. -/
def envAllOk : Env := fun _ => .ok respOk

/-- Environment for the C1 counterexample: every table's count GET
returns HTTP 200, but the response for `properties` carries no
`Content-Range` header. -/
def envC1 : Env := fun q =>
  match q with
  | .countGet t => if t == "properties" then .ok { respOk with contentRange := none } else .ok respOk
  | _ => .ok respOk

/-- The response of the C3 counterexample: a 2xx status that is not
200, with a decodable body. -/
def r201 : Response :=
  { status := 201, text := "Created", json := some [], errJson := none, contentRange := none }

/-- Environment for the C4 witness: the first table of the loop raises
a connection error, all later ones answer normally. -/
def envC4 : Env := fun q =>
  match q with
  | .existsGet t => if t == "properties" then .error "ConnectionError" else .ok respOk
  | .listGet t => if t == "properties" then .error "ConnectionError" else .ok respOk
  | _ => .ok respOk

/-- Environment for the C2 witness: `property-photos` already listed,
`blog-images` missing and created with status 200. -/
def envC2 : Env := fun q =>
  match q with
  | .bucketList => .ok { respOk with json := some [[("name", "property-photos")]] }
  | .bucketCreate _ => .ok respOk
  | .bucketSetPublic _ => .ok respOk
  | _ => .ok respOk

/-- Environment for the C9 witness: the count GET for `blog_posts`
returns 200 without a `Content-Range` header; everything else is
healthy. -/
def envC9 : Env := fun q =>
  match q with
  | .countGet t => if t == "blog_posts" then .ok { respOk with contentRange := none } else .ok respOk
  | _ => .ok respOk

/-- Failure of the bucket-listing GET as setup_storage.py treats it:
either the request raised, or a response with a non-200 status. -/
def listingFailed (o : Except String Response) : Prop :=
  match o with
  | .error _ => True
  | .ok r => r.status ≠ 200

/-! ## Helper lemmas -/

theorem append_ne_of_ne_of_data {p t : String} (c d : Char) (cs ds : List Char)
    (hp : p.data = c :: cs) (ht : t.data = d :: ds) (hcd : c ≠ d) (x : String) :
    p ++ x ≠ t := by
  intro h
  have h2 := congrArg String.data h
  rw [String.data_append, hp, ht] at h2
  exact hcd (List.head_eq_of_cons_eq h2)

theorem splitOnChar_not_mem {c : Char} {l : List Char} (h : c ∉ l) :
    splitOnChar c l = [l] := by
  induction l with
  | nil => rfl
  | cons x xs ih =>
    have hx : ¬(x = c) := fun hxc => h (by simp [hxc])
    have hxs : c ∉ xs := fun hm => h (List.mem_cons_of_mem _ hm)
    simp [splitOnChar, hx, ih hxs]

theorem pySplitIndex1_of_not_mem {h : Option (List Char)}
    (hcr : h = none ∨ ∃ s, h = some s ∧ '/' ∉ s) :
    pySplitIndex1 h = none := by
  rcases hcr with hn | ⟨s, hs, hmem⟩
  · subst hn; rfl
  · subst hs
    simp [pySplitIndex1, splitOnChar_not_mem hmem]

theorem checkTableStep_ok (t : String) (o : Except String Response) :
    (checkTableStep t o).2 = tableCheckOk o := by
  rcases o with e | r
  · rfl
  · simp only [checkTableStep, tableCheckOk]
    rcases h200 : (r.status == 200) with _ | _
    · simp [h200]
    · simp only [h200, if_true]
      rcases hj : r.json with _ | d
      · simp [hj]
      · simp only [hj, Option.isSome_some, Bool.and_true]
        split <;> rfl

theorem verifyLoop_ok (ts : List String) (env : Env) :
    (verifyLoop ts env).2.2 = ts.all fun t => tableCheckOk (env (.existsGet t)) := by
  induction ts with
  | nil => rfl
  | cons t ts ih => simp [verifyLoop, ih, checkTableStep_ok]

theorem verifyLoop_reqs (ts : List String) (env : Env) :
    (verifyLoop ts env).1 = ts.map Req.existsGet := by
  induction ts with
  | nil => rfl
  | cons t ts ih => simp [verifyLoop, ih]

theorem verifyLoop_printed_mem (ts : List String) (env : Env) (t : String)
    (ht : t ∈ ts) (l : String) (hl : l ∈ (checkTableStep t (env (.existsGet t))).1) :
    l ∈ (verifyLoop ts env).2.1 := by
  induction ts with
  | nil => cases ht
  | cons u us ih =>
    simp only [verifyLoop, List.mem_append]
    rcases List.mem_cons.mp ht with h | h
    · subst h; exact Or.inl hl
    · exact Or.inr (ih h)

theorem verify_tables_ret (env : Env) :
    (verify_tables env).2.2 = tables_to_check.all fun t => tableCheckOk (env (.existsGet t)) := by
  simp only [verify_tables, ← verifyLoop_ok]
  rcases h : (verifyLoop tables_to_check env).2.2 <;> simp [h]

/-! ## Claim C8: determinism of the verification scripts -/

/-- C8: each verification script is deterministic in its inputs — two
runs of `verify_tables` or `check_if_tables_exist` receiving identical
HTTP outcomes produce identical printed output, request traces and
return values, whatever the ambient process state (clock, randomness,
shared state) of each run. -/
theorem c8_determinism (a₁ a₂ : Ambient) (env₁ env₂ : Env) (h : ∀ q, env₁ q = env₂ q) :
    verify_tables_run a₁ env₁ = verify_tables_run a₂ env₂ ∧
    check_tables_run a₁ env₁ = check_tables_run a₂ env₂ := by
  have he : env₁ = env₂ := funext h
  subst he
  exact ⟨rfl, rfl⟩

theorem c8_determinism_witness :
    verify_tables_run ⟨0, 0, 0⟩ envAllErr = verify_tables_run ⟨5, 7, 9⟩ envAllErr ∧
    check_tables_run ⟨0, 0, 0⟩ envAllErr = check_tables_run ⟨5, 7, 9⟩ envAllErr :=
  c8_determinism _ _ _ _ (fun _ => rfl)

/-! ## Claim C6: manual instructions when the direct connection is unavailable -/

/-- C6: when the direct database connection attempt fails,
`execute_schema` catches the error, prints it and returns `False`;
`execute_schema_via_api` unconditionally prints the dashboard and psql
instructions together with the schema text, issues no HTTP request,
and returns `False`. -/
theorem c6_manual_instructions (sql e : String) :
    execute_schema (some sql) (.error e) =
      .ok (["Reading schema file...",
            "Connecting to Supabase PostgreSQL database...",
            s!"❌ Database error: {e}"], false)
    ∧ ∀ reqs lines ret, execute_schema_via_api (some sql) = .ok (reqs, lines, ret) →
        reqs = [] ∧ ret = false ∧
        "1. Go to: https://supabase.com/dashboard/project/pzrdkijtktgdwayjzbfu" ∈ lines ∧
        "psql -h db.pzrdkijtktgdwayjzbfu.supabase.co -p 5432 -U postgres -d postgres -f supabase/schema.sql" ∈ lines ∧
        sql ∈ lines := by
  refine ⟨rfl, ?_⟩
  intro reqs lines ret h
  simp only [execute_schema_via_api, Except.ok.injEq, Prod.mk.injEq] at h
  obtain ⟨h1, h2, h3⟩ := h
  subst h1; subst h2; subst h3
  refine ⟨rfl, rfl, by simp, by simp, by simp⟩

theorem c6_manual_instructions_witness :
    execute_schema (some "CREATE TABLE properties;") (.error "could not connect to server") =
      .ok (["Reading schema file...",
            "Connecting to Supabase PostgreSQL database...",
            "❌ Database error: could not connect to server"], false) :=
  (c6_manual_instructions "CREATE TABLE properties;" "could not connect to server").1

/-! ## Claim C3 (corrected): get_data branches on status == 200, not on 2xx -/

/-- Refutes C3 as stated: the response status 201 is a 2xx success
status, yet `get_data` takes the error branch for it — it prints the
error line and returns `None` instead of the parsed body. -/
theorem c3_counterexample :
    (200 ≤ r201.status ∧ r201.status < 300 ∧ r201.json = some []) ∧
    get_data "properties" r201 = .ok (["Error fetching properties: 201 - Created"], none) :=
  ⟨by decide, rfl⟩

/-- C3 (amended): `get_data` returns the parsed JSON body when the
response status is exactly 200, and otherwise prints one error line
carrying the table name, the status code and the response body and
returns `None`; the error branch is taken exactly for statuses other
than 200 (so a 2xx status such as 201 is treated as an error). -/
theorem c3_get_data (tbl : String) (r : Response) :
    (r.status = 200 → ∀ d, r.json = some d → get_data tbl r = .ok ([], some d))
    ∧ (r.status ≠ 200 →
        ∃ st t, st = r.status ∧ t = r.text ∧
          get_data tbl r = .ok ([s!"Error fetching {tbl}: {st} - {t}"], none))
    ∧ (∀ lines body, get_data tbl r = .ok (lines, body) → (lines ≠ [] ↔ r.status ≠ 200)) := by
  refine ⟨?_, ?_, ?_⟩
  · intro h200 d hd
    simp [get_data, h200, hd]
  · intro hne
    refine ⟨r.status, r.text, rfl, rfl, ?_⟩
    have : (r.status == 200) = false := by simpa using hne
    simp [get_data, this]
  · intro lines body h
    rcases h200 : (r.status == 200) with _ | _
    · have hne : r.status ≠ 200 := by simpa using h200
      simp only [get_data, h200, Bool.false_eq_true, if_false, Except.ok.injEq,
        Prod.mk.injEq] at h
      simp [← h.1, hne]
    · have heq : r.status = 200 := by simpa using h200
      rcases hj : r.json with _ | d
      · simp [get_data, h200, hj] at h
      · simp only [get_data, h200, if_true, hj, Except.ok.injEq, Prod.mk.injEq] at h
        simp [← h.1, heq]

theorem c3_get_data_witness :
    get_data "properties" respOk = .ok ([], some []) :=
  (c3_get_data "properties" respOk).1 rfl [] rfl

/-! ## Claim C5: column comparison is a set comparison -/

theorem check_columns_cond (expected actual : List String) :
    ((expected.filter fun c => !actual.contains c).isEmpty &&
     (actual.filter fun c => !expected.contains c).isEmpty) = true ↔
      expected.toFinset = actual.toFinset := by
  rw [Bool.and_eq_true, List.isEmpty_iff, List.isEmpty_iff,
      List.filter_eq_nil_iff, List.filter_eq_nil_iff]
  constructor
  · rintro ⟨h1, h2⟩
    apply Finset.ext
    intro x
    simp only [List.mem_toFinset]
    exact ⟨fun hx => by simpa using h1 x hx, fun hx => by simpa using h2 x hx⟩
  · intro h
    constructor
    · intro a ha
      have : a ∈ actual := List.mem_toFinset.mp (h ▸ List.mem_toFinset.mpr ha)
      simpa using this
    · intro a ha
      have : a ∈ expected := List.mem_toFinset.mp (h.symm ▸ List.mem_toFinset.mpr ha)
      simpa using this

theorem missLine_ne_colsOkMsg (x : List String) :
    "❌ Missing columns: " ++ toString x ≠ colsOkMsg :=
  append_ne_of_ne_of_data '❌' '✅' _ _ rfl rfl (by decide) _

theorem extraLine_ne_colsOkMsg (x : List String) :
    "⚠️  Extra columns: " ++ toString x ≠ colsOkMsg :=
  append_ne_of_ne_of_data '⚠' '✅' _ _ rfl rfl (by decide) _

/-- C5: in the schema-verification main loop the message `All expected
columns present and no extras` is printed for a table exactly when the
key set of the sampled row equals the expected column set; the
comparison is therefore insensitive to column order and duplicates. -/
theorem c5_column_set_comparison (expected actual : List String) :
    check_columns expected actual = [colsOkMsg] ↔ expected.toFinset = actual.toFinset := by
  rw [← check_columns_cond expected actual]
  simp only [check_columns]
  by_cases hb : ((expected.filter fun c => !actual.contains c).isEmpty &&
      (actual.filter fun c => !expected.contains c).isEmpty) = true
  · rw [if_pos hb]
    simp only [true_iff]
    simpa using hb
  · rw [if_neg hb]
    refine iff_of_false ?_ hb
    rcases hm : (expected.filter fun c => !actual.contains c).isEmpty with _ | _
    · rcases he : (actual.filter fun c => !expected.contains c).isEmpty with _ | _
      · rw [if_neg (by simp [hm]), if_neg (by simp [he])]
        intro h
        have := congrArg List.length h
        simp at this
      · rw [if_neg (by simp [hm]), if_pos (by simp [he]), List.append_nil]
        intro h
        exact missLine_ne_colsOkMsg _ (List.head_eq_of_cons_eq h)
    · rcases he : (actual.filter fun c => !expected.contains c).isEmpty with _ | _
      · rw [if_pos (by simp [hm]), if_neg (by simp [he]), List.nil_append]
        intro h
        exact extraLine_ne_colsOkMsg _ (List.head_eq_of_cons_eq h)
      · exact absurd (by rw [hm, he]; rfl) hb

theorem c5_column_set_comparison_witness :
    check_columns ["id", "name", "slug"] ["slug", "id", "name"] = [colsOkMsg] :=
  (c5_column_set_comparison ["id", "name", "slug"] ["slug", "id", "name"]).mpr (by decide)

/-! ## Claim C7: exactly one existence GET per table -/

/-- C7: during a `verify_tables` run, exactly one existence GET is
issued to each checked table's `?limit=1` endpoint, whether the
request succeeds, returns a non-200 status, or raises; no request is
ever re-issued. -/
theorem c7_single_request (env : Env) (t : String) (ht : t ∈ tables_to_check) :
    (verify_tables env).1.count (Req.existsGet t) = 1 := by
  have hinj : Function.Injective Req.existsGet := fun a b h => by injection h
  have hloop : (verifyLoop tables_to_check env).1.count (Req.existsGet t) = 1 := by
    rw [verifyLoop_reqs, List.count_map_of_injective _ _ hinj]
    exact List.count_eq_one_of_mem (by decide) ht
  rcases hs : (verifyLoop tables_to_check env).2.2 with _ | _
  · simp only [verify_tables, hs, Bool.false_eq_true, if_false]
    exact hloop
  · simp only [verify_tables, hs, if_true]
    have h0 : ([Req.listGet "properties", Req.listGet "site_settings"] : List Req).count
        (Req.existsGet t) = 0 :=
      List.count_eq_zero.mpr (by simp)
    rw [List.count_append, hloop, h0]

theorem c7_single_request_witness :
    (verify_tables envAllErr).1.count (Req.existsGet "blog_posts") = 1 :=
  c7_single_request envAllErr "blog_posts" (by decide)

/-! ## Claim C4: per-table exceptions never stop the loop -/

theorem anonLoop_reqs (ts : List String) (env : Env) :
    (anonLoop ts env).1 = ts.map Req.listGet := by
  induction ts with
  | nil => rfl
  | cons t ts ih => simp [anonLoop, ih]

theorem anonLoop_printed (ts : List String) (env : Env) :
    (anonLoop ts env).2 = ts.map fun t => anonStep t (env (.listGet t)) := by
  induction ts with
  | nil => rfl
  | cons t ts ih => simp [anonLoop, ih]

theorem verify_tables_printed_mem (env : Env) (t : String) (ht : t ∈ tables_to_check)
    (l : String) (hl : l ∈ (checkTableStep t (env (.existsGet t))).1) :
    l ∈ (verify_tables env).2.1 := by
  have hm := verifyLoop_printed_mem tables_to_check env t ht l hl
  rcases hs : (verifyLoop tables_to_check env).2.2 with _ | _ <;>
    simp only [verify_tables, hs, Bool.false_eq_true, if_false, if_true] <;>
    simp [hm]

/-- C4: in both `test_anon_access` and `verify_tables`, every table of
the list is checked — its GET appears in the request trace and its
result line in the printed output — regardless of the outcomes of the
other tables; and a connection exception for a table is caught and
printed as that table's error line. -/
theorem c4_loop_isolation (env : Env) (t : String) (ht : t ∈ tables_to_check) :
    (Req.listGet t ∈ (test_anon_access env).1 ∧
     anonStep t (env (.listGet t)) ∈ (test_anon_access env).2 ∧
     ∀ e, env (.listGet t) = .error e →
       (s!"❌ {t}: Error - {e}") ∈ (test_anon_access env).2)
    ∧ (Req.existsGet t ∈ (verify_tables env).1 ∧
       ∀ e, env (.existsGet t) = .error e →
         (s!"❌ Table {t} - Connection error: {e}") ∈ (verify_tables env).2.1) := by
  refine ⟨⟨?_, ?_, ?_⟩, ?_, ?_⟩
  · simp only [test_anon_access, anonLoop_reqs]
    exact List.mem_map_of_mem _ ht
  · simp only [test_anon_access]
    refine List.mem_append_right _ ?_
    rw [anonLoop_printed]
    exact List.mem_map_of_mem _ ht
  · intro e he
    have hline : anonStep t (env (.listGet t)) = s!"❌ {t}: Error - {e}" := by
      rw [he]; rfl
    rw [← hline]
    simp only [test_anon_access]
    refine List.mem_append_right _ ?_
    rw [anonLoop_printed]
    exact List.mem_map_of_mem _ ht
  · have hm : Req.existsGet t ∈ (verifyLoop tables_to_check env).1 := by
      rw [verifyLoop_reqs]
      exact List.mem_map_of_mem _ ht
    rcases hs : (verifyLoop tables_to_check env).2.2 with _ | _ <;>
      simp only [verify_tables, hs, Bool.false_eq_true, if_false, if_true] <;>
      simp [hm]
  · intro e he
    apply verify_tables_printed_mem env t ht
    rw [he]
    simp [checkTableStep]

theorem c4_loop_isolation_witness :
    (s!"❌ Table properties - Connection error: ConnectionError") ∈ (verify_tables envC4).2.1
    ∧ Req.existsGet "site_settings" ∈ (verify_tables envC4).1
    ∧ Req.listGet "site_settings" ∈ (test_anon_access envC4).1 :=
  ⟨(c4_loop_isolation envC4 "properties" (by decide)).2.2 "ConnectionError" rfl,
   (c4_loop_isolation envC4 "site_settings" (by decide)).2.1,
   (c4_loop_isolation envC4 "site_settings" (by decide)).1.1⟩

/-! ## Storage-bucket lemmas for C2 and C10 -/

theorem createBucketStep_ready (id : String) (names : List String) (env : Env) :
    (createBucketStep id names env).2.2 = bucketReady env names id := by
  simp only [createBucketStep, bucketReady]
  rcases hc : names.contains id with _ | _
  · simp only [Bool.false_eq_true, if_false, Bool.false_or]
    rcases ho : env (.bucketCreate id) with e | r
    · rfl
    · simp only []
      rcases hst : (r.status == 200 || r.status == 201) with _ | _
      · simp [hst]
      · simp only [hst, if_true]
        rcases hp : env (.bucketSetPublic id) with e2 | p <;> rfl
  · simp [hc]

theorem createBucketStep_trace_of_listed (id : String) (names : List String) (env : Env)
    (h : names.contains id = true) : (createBucketStep id names env).1 = [] := by
  have hm : id ∈ names := by simpa using h
  simp [createBucketStep, hm]

theorem createBucketStep_create_mem (id : String) (names : List String) (env : Env)
    (h : names.contains id = false) : Req.bucketCreate id ∈ (createBucketStep id names env).1 := by
  simp only [createBucketStep, h, Bool.false_eq_true, if_false]
  rcases ho : env (.bucketCreate id) with e | r
  · simp
  · simp only []
    rcases hst : (r.status == 200 || r.status == 201) with _ | _
    · simp [hst]
    · simp only [hst, if_true]
      rcases hp : env (.bucketSetPublic id) with e2 | p <;> simp

theorem createBucketStep_put_mem (id : String) (names : List String) (env : Env)
    (h : names.contains id = false) (r : Response) (hr : env (.bucketCreate id) = .ok r)
    (hst : (r.status == 200 || r.status == 201) = true) :
    Req.bucketSetPublic id ∈ (createBucketStep id names env).1 := by
  simp only [createBucketStep, h, Bool.false_eq_true, if_false, hr, hst, if_true]
  rcases hp : env (.bucketSetPublic id) with e2 | p <;> simp

theorem createBucketStep_trace_sub (id : String) (names : List String) (env : Env) :
    ∀ q ∈ (createBucketStep id names env).1,
      q = Req.bucketCreate id ∨ q = Req.bucketSetPublic id := by
  intro q hq
  simp only [createBucketStep] at hq
  rcases hc : names.contains id with _ | _ <;> rw [hc] at hq
  · simp only [Bool.false_eq_true, if_false] at hq
    rcases ho : env (.bucketCreate id) with e | r <;> rw [ho] at hq
    · simp at hq
      exact Or.inl hq
    · simp only [] at hq
      rcases hst : (r.status == 200 || r.status == 201) with _ | _ <;> rw [hst] at hq
      · simp only [Bool.false_eq_true, if_false] at hq
        simp at hq
        exact Or.inl hq
      · simp only [if_true] at hq
        rcases hp : env (.bucketSetPublic id) with e2 | p <;> rw [hp] at hq <;>
          simp at hq <;> exact hq
  · simp at hq

theorem bucketLoop_cnt_le (bs : List String) (names : List String) (env : Env) :
    (bucketLoop bs names env).2.2 ≤ bs.length := by
  induction bs with
  | nil => simp [bucketLoop]
  | cons b bs ih =>
    simp only [bucketLoop, List.length_cons]
    rcases h : (createBucketStep b names env).2.2 with _ | _ <;>
      simp only [h, Bool.false_eq_true, if_false, if_true] <;> omega

theorem bucketLoop_ret (bs : List String) (names : List String) (env : Env) :
    ((bucketLoop bs names env).2.2 == bs.length) =
      bs.all fun b => (createBucketStep b names env).2.2 := by
  induction bs with
  | nil => rfl
  | cons b bs ih =>
    simp only [bucketLoop, List.length_cons, List.all_cons]
    rcases hok : (createBucketStep b names env).2.2 with _ | _
    · simp only [hok, Bool.false_eq_true, if_false, Bool.false_and, Nat.zero_add]
      have hle := bucketLoop_cnt_le bs names env
      rw [beq_eq_false_iff_ne]
      omega
    · simp only [hok, if_true, Bool.true_and, ← ih]
      rw [Bool.eq_iff_iff]
      simp only [beq_iff_eq]
      omega

theorem bucketLoop_trace_mem (bs : List String) (names : List String) (env : Env)
    (b : String) (hb : b ∈ bs) (q : Req) (hq : q ∈ (createBucketStep b names env).1) :
    q ∈ (bucketLoop bs names env).1 := by
  induction bs with
  | nil => cases hb
  | cons u us ih =>
    simp only [bucketLoop, List.mem_append]
    rcases List.mem_cons.mp hb with h | h
    · subst h; exact Or.inl hq
    · exact Or.inr (ih h)

theorem bucketLoop_trace_sub (bs : List String) (names : List String) (env : Env)
    (q : Req) (hq : q ∈ (bucketLoop bs names env).1) :
    ∃ b ∈ bs, q ∈ (createBucketStep b names env).1 := by
  induction bs with
  | nil => simp [bucketLoop] at hq
  | cons u us ih =>
    simp only [bucketLoop, List.mem_append] at hq
    rcases hq with h | h
    · exact ⟨u, List.mem_cons_self u us, h⟩
    · obtain ⟨b, hb, hq⟩ := ih h
      exact ⟨b, List.mem_cons_of_mem _ hb, hq⟩

/-! ## Claim C10: a failed bucket listing never skips a bucket -/

/-- C10: when the bucket-listing GET fails (non-200 response or a
raised exception), `setup_storage_buckets` takes the set of existing
bucket names to be empty and still issues a creation POST for every
required bucket — an unreachable listing endpoint can only cause
duplicate-creation attempts, never a skipped bucket. -/
theorem c10_listing_failure_fallback (env : Env) (h : listingFailed (env .bucketList)) :
    (existingNames (env .bucketList)).2 = [] ∧
    ∀ id ∈ bucketIds, Req.bucketCreate id ∈ (setup_storage_buckets env).1 := by
  have hnames : (existingNames (env .bucketList)).2 = [] := by
    rcases ho : env .bucketList with e | r
    · rfl
    · rw [ho] at h
      simp only [listingFailed] at h
      have hst : (r.status == 200) = false := by simpa using h
      simp [existingNames, hst]
  refine ⟨hnames, ?_⟩
  intro id hid
  have hcontains : ((existingNames (env .bucketList)).2).contains id = false := by
    rw [hnames]; rfl
  have hc := createBucketStep_create_mem id _ env hcontains
  have hmem := bucketLoop_trace_mem bucketIds _ env id hid _ hc
  simp only [setup_storage_buckets]
  exact List.mem_cons_of_mem _ hmem

theorem c10_listing_failure_fallback_witness :
    Req.bucketCreate "blog-images" ∈ (setup_storage_buckets envAllErr).1 :=
  (c10_listing_failure_fallback envAllErr trivial).2 "blog-images" (by decide)

/-! ## Claim C2: the bucket provisioner -/

/-- C2: `setup_storage_buckets` lists the existing buckets, then for
every required bucket: one already in the listing is counted as ready
and left untouched (no creation POST, no public-flag PUT for it), one
missing receives a creation POST, and when the creation succeeds with
status 200/201 the public-read PUT is issued; the function returns
`True` exactly when every required bucket is ready (pre-existing or
created with status 200/201). -/
theorem c2_bucket_provisioner (env : Env) :
    ((setup_storage_buckets env).2.2 = true ↔
      ∀ id ∈ bucketIds, bucketReady env (existingNames (env .bucketList)).2 id = true)
    ∧ (∀ id ∈ bucketIds, (existingNames (env .bucketList)).2.contains id = true →
        Req.bucketCreate id ∉ (setup_storage_buckets env).1 ∧
        Req.bucketSetPublic id ∉ (setup_storage_buckets env).1)
    ∧ (∀ id ∈ bucketIds, (existingNames (env .bucketList)).2.contains id = false →
        Req.bucketCreate id ∈ (setup_storage_buckets env).1)
    ∧ (∀ id ∈ bucketIds, ∀ r : Response,
        (existingNames (env .bucketList)).2.contains id = false →
        env (.bucketCreate id) = .ok r → (r.status == 200 || r.status == 201) = true →
        Req.bucketSetPublic id ∈ (setup_storage_buckets env).1) := by
  refine ⟨?_, ?_, ?_, ?_⟩
  · simp only [setup_storage_buckets]
    rw [bucketLoop_ret]
    have hf : (fun b => (createBucketStep b (existingNames (env .bucketList)).2 env).2.2) =
        fun b => bucketReady env (existingNames (env .bucketList)).2 b :=
      funext fun b => createBucketStep_ready b _ env
    rw [hf, List.all_eq_true]
  · intro id hid hcont
    constructor <;> intro hmem <;>
      simp only [setup_storage_buckets, List.mem_cons] at hmem <;>
      rcases hmem with hbad | hmem
    · exact absurd hbad (by simp)
    · obtain ⟨b, _, hqb⟩ := bucketLoop_trace_sub bucketIds _ env _ hmem
      by_cases hbid : b = id
      · subst hbid
        rw [createBucketStep_trace_of_listed b _ env hcont] at hqb
        cases hqb
      · rcases createBucketStep_trace_sub b _ env _ hqb with hq | hq
        · exact hbid (by injection hq with h2; exact h2.symm)
        · cases hq
    · exact absurd hbad (by simp)
    · obtain ⟨b, _, hqb⟩ := bucketLoop_trace_sub bucketIds _ env _ hmem
      by_cases hbid : b = id
      · subst hbid
        rw [createBucketStep_trace_of_listed b _ env hcont] at hqb
        cases hqb
      · rcases createBucketStep_trace_sub b _ env _ hqb with hq | hq
        · cases hq
        · exact hbid (by injection hq with h2; exact h2.symm)
  · intro id hid hcont
    have hc := createBucketStep_create_mem id _ env hcont
    have hmem := bucketLoop_trace_mem bucketIds _ env id hid _ hc
    simp only [setup_storage_buckets]
    exact List.mem_cons_of_mem _ hmem
  · intro id hid r hcont hr hst
    have hc := createBucketStep_put_mem id _ env hcont r hr hst
    have hmem := bucketLoop_trace_mem bucketIds _ env id hid _ hc
    simp only [setup_storage_buckets]
    exact List.mem_cons_of_mem _ hmem

theorem c2_bucket_provisioner_witness :
    (setup_storage_buckets envC2).2.2 = true
    ∧ Req.bucketCreate "property-photos" ∉ (setup_storage_buckets envC2).1
    ∧ Req.bucketSetPublic "blog-images" ∈ (setup_storage_buckets envC2).1 :=
  ⟨(c2_bucket_provisioner envC2).1.mpr (by decide),
   ((c2_bucket_provisioner envC2).2.1 "property-photos" (by decide) (by decide)).1,
   (c2_bucket_provisioner envC2).2.2.2 "blog-images" (by decide) respOk (by decide) rfl rfl⟩

/-! ## Claim C9: the Content-Range guard in verify_database_setup -/

theorem verifySetupLoop_ok (ts : List (String × String)) (env : Env) :
    (verifySetupLoop ts env).2.2.1 =
      ts.all fun td => (verifySetupStep td.2 (env (.countGet td.1))).2.1 := by
  induction ts with
  | nil => rfl
  | cons td ts ih =>
    rcases td with ⟨t, d⟩
    simp [verifySetupLoop, ih]

theorem verifySetupLoop_printed_mem (ts : List (String × String)) (env : Env)
    (t d : String) (ht : (t, d) ∈ ts) (l : String)
    (hl : l ∈ (verifySetupStep d (env (.countGet t))).1) :
    l ∈ (verifySetupLoop ts env).2.1 := by
  induction ts with
  | nil => cases ht
  | cons td ts ih =>
    rcases td with ⟨u, e⟩
    simp only [verifySetupLoop, List.mem_append]
    rcases List.mem_cons.mp ht with h | h
    · rw [Prod.mk.injEq] at h
      rw [← h.1, ← h.2]
      exact Or.inl hl
    · exact Or.inr (ih h)

theorem verify_database_setup_ret (env : Env) :
    (verify_database_setup env).2.2 = (verifySetupLoop tables_to_verify env).2.2.1 := by
  rcases hs : (verifySetupLoop tables_to_verify env).2.2.1 <;>
    simp only [verify_database_setup, hs, Bool.false_eq_true, if_false, if_true]

theorem verify_database_setup_printed_mem (env : Env) (l : String)
    (hl : l ∈ (verifySetupLoop tables_to_verify env).2.1) :
    l ∈ (verify_database_setup env).2.1 := by
  rcases hs : (verifySetupLoop tables_to_verify env).2.2.1 <;>
    simp only [verify_database_setup, hs, Bool.false_eq_true, if_false, if_true] <;>
    simp [hl]

/-- C9: in `verify_database_setup`, a table whose GET returns status
200 without a usable `Content-Range` header (absent, or with no `/`
separator so that `split('/')` yields a single piece) is reported with
the ✗ error line — the `IndexError` is caught by the per-table
handler — and `all_tables_exist` becomes `False`; the table is neither
counted as having 0 records nor does the script crash. -/
theorem c9_content_range_guard (env : Env) (t d : String) (r : Response)
    (hmem : (t, d) ∈ tables_to_verify)
    (hr : env (.countGet t) = .ok r)
    (h200 : r.status = 200)
    (hcr : r.contentRange = none ∨ ∃ s, r.contentRange = some s ∧ '/' ∉ s) :
    verifySetupStep d (env (.countGet t)) =
      ([s!"✗ {d}: Error - list index out of range"], false, 0)
    ∧ (s!"✗ {d}: Error - list index out of range") ∈ (verify_database_setup env).2.1
    ∧ (verify_database_setup env).2.2 = false := by
  have hsplit : pySplitIndex1 r.contentRange = none := pySplitIndex1_of_not_mem hcr
  have hstep : verifySetupStep d (env (.countGet t)) =
      ([s!"✗ {d}: Error - list index out of range"], false, 0) := by
    rw [hr]
    simp only [verifySetupStep]
    have hb : (r.status == 200) = true := by simpa using h200
    simp [hb, hsplit]
  refine ⟨hstep, ?_, ?_⟩
  · apply verify_database_setup_printed_mem
    apply verifySetupLoop_printed_mem tables_to_verify env t d hmem
    rw [hstep]
    simp
  · rw [verify_database_setup_ret, verifySetupLoop_ok]
    rcases hall : (tables_to_verify.all
        fun td => (verifySetupStep td.2 (env (.countGet td.1))).2.1) with _ | _
    · rfl
    · exfalso
      have hthis := List.all_eq_true.mp hall (t, d) hmem
      rw [hstep] at hthis
      exact Bool.false_ne_true hthis

theorem c9_content_range_guard_witness :
    (verify_database_setup envC9).2.2 = false :=
  (c9_content_range_guard envC9 "blog_posts" "Blog posts"
    { respOk with contentRange := none }
    (by decide) rfl rfl (Or.inl rfl)).2.2

/-! ## Claim C1: exit codes of the two schema-verification entry points -/

theorem checkExistStep_snd (t : String) (o : Except String Response) :
    (checkExistStep t o).2 = apiCount o := by
  rcases o with e | r
  · rfl
  · simp only [checkExistStep, apiCount]
    rcases h200 : (r.status == 200) with _ | _
    · simp [h200]
    · simp only [h200, if_true]
      rcases hs : pySplitIndex1 r.contentRange with _ | c <;> simp [hs]

theorem checkExistLoop_ex (ts : List String) (env : Env) :
    (checkExistLoop ts env).2.2 =
      ts.filterMap fun t => (apiCount (env (.countGet t))).map fun c => (t, c) := by
  induction ts with
  | nil => rfl
  | cons t ts ih =>
    simp only [checkExistLoop, List.filterMap_cons]
    rcases hs : apiCount (env (.countGet t)) with _ | c
    · have hstep : (checkExistStep t (env (.countGet t))).2 = none := by
        rw [checkExistStep_snd, hs]
      simp [hstep, ih]
    · have hstep : (checkExistStep t (env (.countGet t))).2 = some c := by
        rw [checkExistStep_snd, hs]
      simp [hstep, ih]

theorem length_filterMap_eq_iff {α β : Type} (f : α → Option β) (l : List α) :
    (l.filterMap f).length = l.length ↔ ∀ a ∈ l, (f a).isSome = true := by
  induction l with
  | nil => simp
  | cons a l ih =>
    rcases hf : f a with _ | b
    · simp only [List.filterMap_cons, hf, List.length_cons]
      have hle := List.length_filterMap_le f l
      constructor
      · intro h; omega
      · intro h
        have ha := h a (List.mem_cons_self a l)
        rw [hf] at ha
        simp at ha
    · simp only [List.filterMap_cons, hf, List.length_cons, List.forall_mem_cons,
        Nat.add_right_cancel_iff]
      rw [ih]
      simp

theorem execute_schema_api_exit_eq (env : Env) (sf : Option String) :
    execute_schema_api_exit env sf =
      match check_if_tables_exist env with
      | .error _ => 1
      | .ok out => if out.2.2 then 0 else 1 := by
  simp only [execute_schema_api_exit]
  rcases check_if_tables_exist env with e | out
  · rfl
  · rcases hout : out.2.2 with _ | _
    · simp only [hout, Bool.false_eq_true, if_false]
      rcases sf with _ | s <;> rfl
    · simp [hout]

theorem check_if_tables_exist_ok (env : Env) :
    (∃ out, check_if_tables_exist env = .ok out ∧ out.2.2 = true) ↔
      (∀ t ∈ tables_to_check, (apiCount (env (.countGet t))).isSome = true) ∧
      Option.all (fun c => (pyInt? c).isSome) (apiCount (env (.countGet "properties"))) = true := by
  by_cases hall : ∀ t ∈ tables_to_check, (apiCount (env (.countGet t))).isSome = true
  · obtain ⟨c1, hc1⟩ := Option.isSome_iff_exists.mp (hall "properties" (by decide))
    obtain ⟨c2, hc2⟩ := Option.isSome_iff_exists.mp (hall "property_photos" (by decide))
    obtain ⟨c3, hc3⟩ := Option.isSome_iff_exists.mp (hall "calendar_events" (by decide))
    obtain ⟨c4, hc4⟩ := Option.isSome_iff_exists.mp (hall "blog_posts" (by decide))
    obtain ⟨c5, hc5⟩ := Option.isSome_iff_exists.mp (hall "site_settings" (by decide))
    have hEX : (checkExistLoop tables_to_check env).2.2 =
        [("properties", c1), ("property_photos", c2), ("calendar_events", c3),
         ("blog_posts", c4), ("site_settings", c5)] := by
      rw [checkExistLoop_ex]
      simp [tables_to_check, hc1, hc2, hc3, hc4, hc5]
    have hcond : ((checkExistLoop tables_to_check env).2.2.length ==
        tables_to_check.length) = true := by
      rw [hEX]; rfl
    have e1 : ("properties" == "properties") = true := by decide
    have e2 : ("property_photos" == "properties") = false := by decide
    have e3 : ("calendar_events" == "properties") = false := by decide
    have e4 : ("blog_posts" == "properties") = false := by decide
    have e5 : ("site_settings" == "properties") = false := by decide
    have hcond2 : (([("properties", c1), ("property_photos", c2), ("calendar_events", c3),
        ("blog_posts", c4), ("site_settings", c5)] :
          List (String × List Char)).length == tables_to_check.length) = true := rfl
    rcases hint : pyInt? c1 with _ | n
    · refine iff_of_false ?_ ?_
      · rintro ⟨out, hout, htrue⟩
        have hscan : scanProps
            [("properties", c1), ("property_photos", c2), ("calendar_events", c3),
             ("blog_posts", c4), ("site_settings", c5)] =
              .error "ValueError: invalid literal for int() with base 10" := by
          simp [scanProps, e1, hint]
        simp only [check_if_tables_exist, hEX, hcond2, if_true, hscan] at hout
        exact absurd hout (by simp)
      · rintro ⟨-, hprops⟩
        rw [hc1] at hprops
        simp only [Option.all] at hprops
        rw [hint] at hprops
        simp at hprops
    · have hscan : ∃ ls, scanProps
          [("properties", c1), ("property_photos", c2), ("calendar_events", c3),
           ("blog_posts", c4), ("site_settings", c5)] = .ok ls := by
        simp only [scanProps, e1, if_true, hint]
        by_cases hn : n > 0
        · rw [if_pos hn]
          exact ⟨_, rfl⟩
        · rw [if_neg hn]
          simp only [scanProps, e2, e3, e4, e5, Bool.false_eq_true, if_false]
          exact ⟨_, rfl⟩
      obtain ⟨ls, hscan⟩ := hscan
      refine iff_of_true ?_ ⟨hall, ?_⟩
      · simp only [check_if_tables_exist, hEX, hcond2, if_true, hscan]
        exact ⟨_, rfl, rfl⟩
      · rw [hc1]
        simp only [Option.all]
        rw [hint]
        rfl
  · refine iff_of_false ?_ (fun h => hall h.1)
    rintro ⟨out, hout, htrue⟩
    have hlen : (checkExistLoop tables_to_check env).2.2.length ≠ tables_to_check.length := by
      rw [checkExistLoop_ex]
      intro hcontra
      apply hall
      intro t ht
      have hsome := (length_filterMap_eq_iff _ tables_to_check).mp hcontra t ht
      rcases hapi : apiCount (env (.countGet t)) with _ | c
      · rw [hapi] at hsome
        simp at hsome
      · rfl
    have hcond : ((checkExistLoop tables_to_check env).2.2.length ==
        tables_to_check.length) = false := by
      simpa using hlen
    simp only [check_if_tables_exist, hcond, Bool.false_eq_true, if_false,
      Except.ok.injEq] at hout
    rw [← hout] at htrue
    exact Bool.false_ne_true htrue

/-- Refutes C1 as stated: every one of the five count GETs of
`check_if_tables_exist` receives an HTTP 200 response, yet the process
exits with code 1, because the response for `properties` carries no
`Content-Range` header, so the count extraction raises and the table
is not counted as accessible. -/
theorem c1_counterexample :
    (∀ t ∈ tables_to_check, exStatus (envC1 (.countGet t)) = some 200) ∧
    execute_schema_api_exit envC1 (some "CREATE TABLE properties;") = 1 := by
  constructor
  · decide
  · rfl

/-- C1 (amended): verify_schema.py exits 0 exactly when the existence
GET for every one of the five tables returned HTTP 200 with no
exception raised; execute_schema_api.py exits 0 exactly when
`check_if_tables_exist` found all five tables accessible — status 200
and a record count extractable from the `Content-Range` header — and
the extracted `properties` count parses as an integer (otherwise
`int(count)` raises an uncaught `ValueError` and the interpreter exits
with code 1). -/
theorem c1_exit_codes (env : Env) (schemaFile : Option String) :
    (verify_schema_exit env = 0 ↔
      ∀ t ∈ tables_to_check, tableCheckOk (env (.existsGet t)) = true)
    ∧ (execute_schema_api_exit env schemaFile = 0 ↔
        (∀ t ∈ tables_to_check, (apiCount (env (.countGet t))).isSome = true)
        ∧ Option.all (fun c => (pyInt? c).isSome)
            (apiCount (env (.countGet "properties"))) = true) := by
  constructor
  · have h1 : verify_schema_exit env = 0 ↔ (verify_tables env).2.2 = true := by
      rw [verify_schema_exit]
      rcases h : (verify_tables env).2.2 <;> simp [h]
    rw [h1, verify_tables_ret, List.all_eq_true]
  · rw [execute_schema_api_exit_eq, ← check_if_tables_exist_ok]
    rcases hc : check_if_tables_exist env with e | out
    · simp
    · rcases ho : out.2.2 with _ | _
      · simp only [ho, Bool.false_eq_true, if_false]
        constructor
        · intro h; omega
        · rintro ⟨out2, hout2, htrue⟩
          injection hout2 with h2
          rw [← h2] at htrue
          rw [ho] at htrue
          exact absurd htrue Bool.false_ne_true
      · simp only [ho, if_true]
        exact iff_of_true trivial ⟨out, rfl, ho⟩

theorem c1_exit_codes_witness :
    verify_schema_exit envAllOk = 0 ∧
    execute_schema_api_exit envAllOk (some "CREATE TABLE properties;") = 0 :=
  ⟨(c1_exit_codes envAllOk (some "CREATE TABLE properties;")).1.mpr (by decide),
   (c1_exit_codes envAllOk (some "CREATE TABLE properties;")).2.mpr (by decide)⟩

end Cozy
